import Mathlib

/-!
Verification of the ticket-based asset-permission request workflow
(`apps/tickets/api/request_asset_perm.py`, class `RequestAssetPermTicketViewSet`).

The viewset's core operations are embedded as pure Lean functions over an
explicit state:

* `check_can_set_action` embeds `_check_can_set_action`;
* `get_extra_comment` embeds `_get_extra_comment` (translation markers elided);
* `reject` and `approve` embed the two POST actions, threading the world
  state (`St`) explicitly; each returns the resulting state together with
  an optional raised error;
* `create_asset_permission` embeds `_create_asset_permission`, whose body
  runs inside `with atomic():` in the source — in the embedding it is a single
  state-to-state function, which is exactly the all-or-nothing guarantee the
  transaction provides;
* `assignees` embeds the `assignees` GET action's query
  `Q(role=ROLE_ADMIN) | (Q(related_admin_orgs__id=org_id) &
  (Q(related_admin_orgs__users=user) | Q(related_admin_orgs__admins=user) |
  Q(related_admin_orgs__auditors=user)))`.

Python truthiness on optional strings (`if not confirmed_system_user`,
`if date_start:`) is embedded by `strOptTruthy`.

The Django ORM collaborators are modelled as follows: `Asset.objects.filter
(id__in=confirmed_assets)` is a filter over the ordered, duplicate-free list
of live asset ids (`St.catalog_assets`); `get_object_or_none(SystemUser, id=i)`
is an optional lookup in `St.catalog_system_users`; `AssetPermission.objects
.create` plus the three `add` calls append one grant record to `St.perms`.
-/

/-- Lifecycle status of a ticket (`STATUS_OPEN` / `STATUS_CLOSED`). -/
inductive Status where
  | open_
  | closed
deriving DecidableEq, Repr

/-- The single action recorded on a ticket
(`ACTION_APPROVE` / `ACTION_REJECT`, or not yet set). -/
inductive TicketAction where
  | none_
  | approve
  | reject
deriving DecidableEq, Repr

/-- The errors raised by the viewset (`..exceptions`): `TicketClosed`,
`TicketActionYet`, `NotHaveConfirmedAssets`, `ConfirmedAssetsChanged`,
`NotHaveConfirmedSystemUser`, `ConfirmedSystemUserChanged`. -/
inductive TicketError where
  | ticketClosed
  | ticketActionYet
  | notHaveConfirmedAssets
  | confirmedAssetsChanged
  | notHaveConfirmedSystemUser
  | confirmedSystemUserChanged
deriving DecidableEq, Repr

/-- Python truthiness of an optional string: `None` and the empty string
are falsy, every other string is truthy. -/
def strOptTruthy : Option String → Bool
  | none => false
  | some s => !(s == "")

/-- The ticket's `meta` mapping, restricted to the keys this file reads.
`none` embeds an absent key; `some ""` embeds a key present with an
empty (falsy) value. -/
structure TicketMeta where
  ips : List String
  hostname : String
  system_user : String
  confirmed_assets : List String
  confirmed_system_user : Option String
  date_start : Option String
  date_expired : Option String
deriving DecidableEq, Repr

/-- A ticket. `user` is the requester (the ticket's creator); the rest are
the fields the viewset reads or that `perform_action` writes.
The `Ticket` model itself lives in `..models`, outside the provided source;
`user`, `action_user` and `comments` are modelled from the spec (§3, §4.1). -/
structure Ticket where
  id : Nat
  status : Status
  action : TicketAction
  meta : TicketMeta
  user : String
  user_display : String
  assignees_display : String
  action_user : Option String
  comments : List String
deriving DecidableEq, Repr

/-- An `AssetPermission` grant record: descriptive metadata, optional
validity bounds (`none` means the field was omitted from the creation
payload, so the store's default applies), and the three many-to-many
associations. -/
structure AssetPermission where
  name : String
  created_by : String
  comment : String
  date_start : Option String
  date_expired : Option String
  system_users : List String
  assets : List String
  users : List String
deriving DecidableEq, Repr

/-- The world state an approve/reject call runs against: the ticket row,
the live asset catalog (ids, duplicate-free in the store), the live
system-user catalog, and the permission store. -/
structure St where
  ticket : Ticket
  catalog_assets : List String
  catalog_system_users : List String
  perms : List AssetPermission
deriving DecidableEq, Repr

/-- Modelled from the spec: `Ticket.perform_action` lives in the ticket model
(`..models`), outside the provided source. Per §4.1 it "sets ticket.action to
the requested value, records actor as the user who performed it,
appends/stores comment as the action's justification, persists the ticket". -/
def perform_action (t : Ticket) (a : TicketAction) (actor : String)
    (comment : String) : Ticket :=
  { t with action := a, action_user := some actor,
           comments := t.comments ++ [comment] }

/-- Embeds `get_object_or_none(SystemUser, id=i)`: resolve an id against the
live system-user catalog, returning nothing (rather than raising) when no
record matches. -/
def get_object_or_none (catalog : List String) (i : String) : Option String :=
  catalog.find? (fun x => x == i)

/-- Embeds `_check_can_set_action(instance, action)`: raise `TicketClosed`
when the status is closed, else raise `TicketActionYet` when the recorded
action already equals the requested one, else pass. -/
def check_can_set_action (t : Ticket) (a : TicketAction) :
    Except TicketError Unit :=
  if t.status = Status.closed then
    Except.error TicketError.ticketClosed
  else if t.action = a then
    Except.error TicketError.ticketActionYet
  else
    Except.ok ()

/-- Embeds `_get_extra_comment(instance)`: the fixed-format multi-line text
built from the ticket meta (translation markers elided, layout flattened). -/
def get_extra_comment (t : Ticket) : String :=
  "IP group: " ++ String.intercalate ", " t.meta.ips ++ "\n" ++
  "Hostname: " ++ t.meta.hostname ++ "\n" ++
  "System user: " ++ t.meta.system_user ++ "\n" ++
  "Confirmed assets: " ++ String.intercalate ", " t.meta.confirmed_assets ++ "\n" ++
  "Confirmed system user: " ++ (t.meta.confirmed_system_user.getD "")

/-- Embeds `Asset.objects.filter(id__in=confirmed_assets)`: the live assets
whose id occurs in the ticket's `confirmed_assets` list, in catalog order,
each live record once. -/
def resolved_assets (st : St) : List String :=
  st.catalog_assets.filter (fun a => st.ticket.meta.confirmed_assets.contains a)

/-- Embeds `_create_asset_permission(instance, assets, system_user, user)`.
The source wraps its body in `with atomic():`; here it is one total
state-to-state function: the `perform_action` state transition, the
`AssetPermission.objects.create(**ap_kwargs)` and the three association
`add` calls all take effect together. `date_start` / `date_expired` enter
`ap_kwargs` only when truthy in the ticket meta. -/
def create_asset_permission (st : St) (assets : List String)
    (system_user : String) (user : String) : St :=
  let meta := st.ticket.meta
  let ap0 : AssetPermission :=
    { name := "From request ticket: " ++ st.ticket.user_display ++ " "
        ++ toString st.ticket.id,
      created_by := user,
      comment := st.ticket.user_display ++ " request assets, approved by "
        ++ st.ticket.assignees_display,
      date_start := none, date_expired := none,
      system_users := [], assets := [], users := [] }
  let ap1 := if strOptTruthy meta.date_start then
    { ap0 with date_start := meta.date_start } else ap0
  let ap2 := if strOptTruthy meta.date_expired then
    { ap1 with date_expired := meta.date_expired } else ap1
  let ticket2 := perform_action st.ticket TicketAction.approve user
    (get_extra_comment st.ticket)
  let ap := { ap2 with system_users := [system_user], assets := assets,
                       users := [user] }
  { st with ticket := ticket2, perms := st.perms ++ [ap] }

/-- Embeds the `reject` POST action: run the legality check for
`ACTION_REJECT`; on success perform the reject state transition with the
generated comment. Returns the resulting state and the raised error, if any;
a raise leaves the state exactly as received, since no statement before it
mutates. -/
def reject (st : St) (actor : String) : St × Option TicketError :=
  match check_can_set_action st.ticket TicketAction.reject with
  | Except.error e => (st, some e)
  | Except.ok _ =>
    let ticket2 := perform_action st.ticket TicketAction.reject actor
      (get_extra_comment st.ticket)
    ({ st with ticket := ticket2 }, none)

/-- Embeds the `approve` POST action: legality check for `ACTION_APPROVE`,
then the confirmed-assets checks, then the confirmed-system-user checks,
then `_create_asset_permission`. `actor` is `request.user` (the caller, an
assignee). Returns the resulting state and the raised error, if any; a raise
leaves the state exactly as received, since every raise precedes the first
mutating statement. -/
def approve (st : St) (actor : String) : St × Option TicketError :=
  match check_can_set_action st.ticket TicketAction.approve with
  | Except.error e => (st, some e)
  | Except.ok _ =>
    let assets := resolved_assets st
    if assets.isEmpty then
      (st, some TicketError.notHaveConfirmedAssets)
    else if assets.length ≠ st.ticket.meta.confirmed_assets.length then
      (st, some TicketError.confirmedAssetsChanged)
    else if !(strOptTruthy st.ticket.meta.confirmed_system_user) then
      (st, some TicketError.notHaveConfirmedSystemUser)
    else
      match get_object_or_none st.catalog_system_users
          (st.ticket.meta.confirmed_system_user.getD "") with
      | none => (st, some TicketError.confirmedSystemUserChanged)
      | some system_user =>
        (create_asset_permission st assets system_user actor, none)

/-- Global role of a user in the identity directory (`User.ROLE_ADMIN` and
the other role constants). -/
inductive Role where
  | admin
  | user
  | auditor
  | app
deriving DecidableEq, Repr

/-- A user row of the identity directory: username and global role. -/
structure UserRec where
  name : String
  role : Role
deriving DecidableEq, Repr

/-- An organization row: id and the three membership relations whose reverse
accessors are `related_user_orgs`, `related_admin_orgs`, `related_audit_orgs`. -/
structure Organization where
  id : String
  users : List String
  admins : List String
  auditors : List String
deriving DecidableEq, Repr

/-- `Organization.DEFAULT_ID`, the default/global scope. -/
def DEFAULT_ID : String := "DEFAULT"

/-- Embeds the `assignees` GET action's query set, as the characteristic
filter over the user directory: `q = Q(role=ROLE_ADMIN)`, and when `org_id`
is not the default scope, `q |= Q(related_admin_orgs__id=org_id) &
(Q(related_admin_orgs__users=user) | Q(related_admin_orgs__admins=user) |
Q(related_admin_orgs__auditors=user))` — the joined conditions refer to one
and the same related organization. A pure read: no state is taken or
produced. -/
def assignees (dir_users : List UserRec) (orgs : List Organization)
    (user : String) (org_id : String) : List UserRec :=
  dir_users.filter (fun u =>
    decide (u.role = Role.admin) ||
    (!(org_id == DEFAULT_ID) &&
      orgs.any (fun o =>
        (o.id == org_id) && o.admins.contains u.name &&
        (o.users.contains user || o.admins.contains user ||
         o.auditors.contains user))))

/-! Concrete sample data used by witnesses and counterexamples. -/

/-- A well-formed open ticket requested by `"alice"`: one confirmed live
asset, a confirmed live system user, no date bounds. -/
def sampleMeta : TicketMeta :=
  { ips := ["10.0.0.1"], hostname := "host1", system_user := "root",
    confirmed_assets := ["asset1"], confirmed_system_user := some "su1",
    date_start := none, date_expired := none }

/-- A sample open, action-free ticket from requester `"alice"`. -/
def sampleTicket : Ticket :=
  { id := 7, status := Status.open_, action := TicketAction.none_,
    meta := sampleMeta, user := "alice", user_display := "Alice",
    assignees_display := "Bob", action_user := none, comments := [] }

/-- A state in which `approve` succeeds: the sample ticket against a catalog
holding its confirmed asset and system user, empty permission store. -/
def sampleSt : St :=
  { ticket := sampleTicket, catalog_assets := ["asset1", "asset2"],
    catalog_system_users := ["su1"], perms := [] }

/-- The sample state with the ticket closed. -/
def sampleStClosed : St :=
  { sampleSt with ticket := { sampleTicket with status := Status.closed } }

/-- The sample state with `date_start` present in meta but empty (falsy). -/
def sampleStEmptyDate : St :=
  { sampleSt with ticket :=
      { sampleTicket with meta := { sampleMeta with date_start := some "" } } }

/-- The sample state whose `confirmed_assets` lists the same live asset
twice. -/
def sampleStDupAssets : St :=
  { sampleSt with ticket :=
      { sampleTicket with meta :=
          { sampleMeta with confirmed_assets := ["asset1", "asset1"] } } }

/-- The sample state with a truthy `date_start` and no `date_expired`. -/
def sampleStDates : St :=
  { sampleSt with ticket :=
      { sampleTicket with meta :=
          { sampleMeta with date_start := some "2020-01-01 00:00:00" } } }

/-! Helper lemmas shared by several claim proofs. -/

/-- On an open ticket whose action differs from the requested one, the
legality check passes. -/
theorem check_can_set_action_ok (t : Ticket) (a : TicketAction)
    (hs : t.status ≠ Status.closed) (ha : t.action ≠ a) :
    check_can_set_action t a = Except.ok () := by
  unfold check_can_set_action
  simp [hs, ha]

/-- A tolerant lookup that succeeds returns exactly the requested id. -/
theorem get_object_or_none_eq (c : List String) (i x : String)
    (h : get_object_or_none c i = some x) : x = i := by
  unfold get_object_or_none at h
  simpa using List.find?_some h

/-- On a success of `approve`, the result decomposes as
`create_asset_permission` applied to the resolved assets and system user. -/
theorem approve_ok_eq (st : St) (actor : String)
    (h : (approve st actor).2 = none) :
    (approve st actor).1 =
      create_asset_permission st (resolved_assets st)
        (st.ticket.meta.confirmed_system_user.getD "") actor := by
  cases hc : check_can_set_action st.ticket TicketAction.approve with
  | error e => simp [approve, hc] at h
  | ok u =>
    by_cases h1 : (resolved_assets st).isEmpty
    · simp [approve, hc, h1] at h
    · by_cases h2 :
        (resolved_assets st).length = st.ticket.meta.confirmed_assets.length
      · by_cases h3 :
          strOptTruthy st.ticket.meta.confirmed_system_user = true
        · cases hsu : get_object_or_none st.catalog_system_users
              (st.ticket.meta.confirmed_system_user.getD "") with
          | none => simp [approve, hc, h1, h2, h3, hsu] at h
          | some su =>
            rw [get_object_or_none_eq _ _ _ hsu] at hsu
            simp [approve, hc, h1, h2, h3, hsu]
        · simp [approve, hc, h1, h2, h3] at h
      · simp [approve, hc, h1, h2] at h

/-- C3: the legality check fails with `TicketClosed` whenever the status is
CLOSED, regardless of the current action, taking priority over the
duplicate-action check; on a non-closed ticket it fails with
`TicketActionYet` exactly when the recorded action already equals the
requested one, and passes when the requested action differs (so the
opposite action is not blocked). -/
theorem claim_C3_check_can_set_action (t : Ticket) (a : TicketAction) :
    (t.status = Status.closed →
      check_can_set_action t a = Except.error TicketError.ticketClosed) ∧
    (t.status ≠ Status.closed → t.action = a →
      check_can_set_action t a = Except.error TicketError.ticketActionYet) ∧
    (t.status ≠ Status.closed → t.action ≠ a →
      check_can_set_action t a = Except.ok ()) := by
  refine ⟨fun h1 => ?_, fun h1 h2 => ?_, fun h1 h2 => ?_⟩
  · simp [check_can_set_action, h1]
  · simp [check_can_set_action, h1, h2]
  · exact check_can_set_action_ok t a h1 h2

/-- Witness for C3 at concrete tickets: a closed ticket, an open ticket with
the action already set, and an open fresh ticket. -/
theorem claim_C3_witness :
    check_can_set_action sampleStClosed.ticket TicketAction.approve
        = Except.error TicketError.ticketClosed ∧
    check_can_set_action { sampleTicket with action := TicketAction.approve }
        TicketAction.approve = Except.error TicketError.ticketActionYet ∧
    check_can_set_action sampleTicket TicketAction.approve = Except.ok () :=
  ⟨(claim_C3_check_can_set_action sampleStClosed.ticket
      TicketAction.approve).1 (by decide),
   (claim_C3_check_can_set_action
      { sampleTicket with action := TicketAction.approve }
      TicketAction.approve).2.1 (by decide) (by decide),
   (claim_C3_check_can_set_action sampleTicket TicketAction.approve).2.2
      (by decide) (by decide)⟩

/-- C7: a successful reject records the REJECT action, the actor and the
generated comment on the ticket, and leaves the permission store (and the
catalogs) unchanged: no grant is created. -/
theorem claim_C7_reject (st : St) (actor : String)
    (h : (reject st actor).2 = none) :
    (reject st actor).1.ticket.action = TicketAction.reject ∧
    (reject st actor).1.ticket.action_user = some actor ∧
    (reject st actor).1.ticket.comments
      = st.ticket.comments ++ [get_extra_comment st.ticket] ∧
    (reject st actor).1.perms = st.perms ∧
    (reject st actor).1.catalog_assets = st.catalog_assets ∧
    (reject st actor).1.catalog_system_users = st.catalog_system_users := by
  cases hc : check_can_set_action st.ticket TicketAction.reject with
  | error e => simp [reject, hc] at h
  | ok u => simp [reject, hc, perform_action]

/-- Witness for C7: rejecting the sample open ticket succeeds, records the
action, actor and comment, and leaves the permission store unchanged. -/
theorem claim_C7_witness :
    (reject sampleSt "bob").2 = none ∧
    ((reject sampleSt "bob").1.ticket.action = TicketAction.reject ∧
     (reject sampleSt "bob").1.ticket.action_user = some "bob" ∧
     (reject sampleSt "bob").1.ticket.comments
       = sampleSt.ticket.comments ++ [get_extra_comment sampleSt.ticket] ∧
     (reject sampleSt "bob").1.perms = sampleSt.perms ∧
     (reject sampleSt "bob").1.catalog_assets = sampleSt.catalog_assets ∧
     (reject sampleSt "bob").1.catalog_system_users
       = sampleSt.catalog_system_users) :=
  ⟨by decide, claim_C7_reject sampleSt "bob" (by decide)⟩

/-- C8: on every error outcome of `approve` or `reject` the state is exactly
the state received: the ticket's fields and the permission store are
untouched — every raise happens before any mutation. -/
theorem claim_C8_no_mutation_on_error (st : St) (actor : String) :
    ((approve st actor).2.isSome → (approve st actor).1 = st) ∧
    ((reject st actor).2.isSome → (reject st actor).1 = st) := by
  constructor
  · intro h
    cases hc : check_can_set_action st.ticket TicketAction.approve with
    | error e => simp [approve, hc]
    | ok u =>
      by_cases h1 : (resolved_assets st).isEmpty
      · simp [approve, hc, h1]
      · by_cases h2 :
          (resolved_assets st).length = st.ticket.meta.confirmed_assets.length
        · by_cases h3 :
            strOptTruthy st.ticket.meta.confirmed_system_user = true
          · cases hsu : get_object_or_none st.catalog_system_users
                (st.ticket.meta.confirmed_system_user.getD "") with
            | none => simp [approve, hc, h1, h2, h3, hsu]
            | some su => simp [approve, hc, h1, h2, h3, hsu] at h
          · simp [approve, hc, h1, h2, h3]
        · simp [approve, hc, h1, h2]
  · intro h
    cases hc : check_can_set_action st.ticket TicketAction.reject with
    | error e => simp [reject, hc]
    | ok u => simp [reject, hc] at h

/-- Witness for C8: on the closed sample state both operations raise and
leave the state unchanged. -/
theorem claim_C8_witness :
    (approve sampleStClosed "bob").1 = sampleStClosed ∧
    (reject sampleStClosed "bob").1 = sampleStClosed :=
  ⟨(claim_C8_no_mutation_on_error sampleStClosed "bob").1 (by decide),
   (claim_C8_no_mutation_on_error sampleStClosed "bob").2 (by decide)⟩

/-- C2: every `approve` execution is all-or-nothing: either it raises and
returns the received state unchanged, or it succeeds and the APPROVE
action-field update and the appended grant both persist in the resulting
state. No intermediate state is producible: the transition and the grant
creation happen inside one `atomic()` block, embedded as a single
state-to-state function. -/
theorem claim_C2_approve_atomic (st : St) (actor : String) :
    (∃ e, approve st actor = (st, some e)) ∨
    ((approve st actor).2 = none ∧
     (approve st actor).1.ticket.action = TicketAction.approve ∧
     ∃ ap, (approve st actor).1.perms = st.perms ++ [ap]) := by
  cases hc : check_can_set_action st.ticket TicketAction.approve with
  | error e => exact Or.inl ⟨e, by simp [approve, hc]⟩
  | ok u =>
    by_cases h1 : (resolved_assets st).isEmpty
    · exact Or.inl ⟨TicketError.notHaveConfirmedAssets,
        by simp [approve, hc, h1]⟩
    · by_cases h2 :
        (resolved_assets st).length = st.ticket.meta.confirmed_assets.length
      · by_cases h3 :
          strOptTruthy st.ticket.meta.confirmed_system_user = true
        · cases hsu : get_object_or_none st.catalog_system_users
              (st.ticket.meta.confirmed_system_user.getD "") with
          | none =>
            exact Or.inl ⟨TicketError.confirmedSystemUserChanged,
              by simp [approve, hc, h1, h2, h3, hsu]⟩
          | some su =>
            have hnone : (approve st actor).2 = none := by
              simp [approve, hc, h1, h2, h3, hsu]
            refine Or.inr ⟨hnone, ?_, ?_⟩
            · rw [approve_ok_eq st actor hnone]
              simp [create_asset_permission, perform_action]
            · rw [approve_ok_eq st actor hnone]
              exact ⟨_, rfl⟩
        · exact Or.inl ⟨TicketError.notHaveConfirmedSystemUser,
            by simp [approve, hc, h1, h2, h3]⟩
      · exact Or.inl ⟨TicketError.confirmedAssetsChanged,
          by simp [approve, hc, h1, h2]⟩

/-- Characterization of the two asset errors of `approve`, past the
legality check. -/
theorem approve_asset_error_iff (st : St) (actor : String)
    (hs : st.ticket.status ≠ Status.closed)
    (ha : st.ticket.action ≠ TicketAction.approve) :
    ((approve st actor).2 = some TicketError.notHaveConfirmedAssets ↔
      resolved_assets st = []) ∧
    ((approve st actor).2 = some TicketError.confirmedAssetsChanged ↔
      resolved_assets st ≠ [] ∧
      (resolved_assets st).length ≠ st.ticket.meta.confirmed_assets.length) := by
  have hc := check_can_set_action_ok st.ticket TicketAction.approve hs ha
  by_cases h1 : resolved_assets st = []
  · simp [approve, hc, h1]
  · have h1e : (resolved_assets st).isEmpty = false := by
      simp [List.isEmpty_iff, h1]
    by_cases h2 :
        (resolved_assets st).length = st.ticket.meta.confirmed_assets.length
    · by_cases h3 :
          strOptTruthy st.ticket.meta.confirmed_system_user = true
      · cases hsu : get_object_or_none st.catalog_system_users
            (st.ticket.meta.confirmed_system_user.getD "") with
        | none => simp [approve, hc, h1e, h1, h2, h3, hsu]
        | some su => simp [approve, hc, h1e, h1, h2, h3, hsu]
      · simp [approve, hc, h1e, h1, h2, h3]
    · simp [approve, hc, h1e, h1, h2]

/-- C4: past the legality check, `approve` raises `NotHaveConfirmedAssets`
exactly when the confirmed-assets list resolves to zero live assets (which
covers an empty list), and raises `ConfirmedAssetsChanged` exactly when at
least one asset resolves but the resolved count differs from the
requested-id count. -/
theorem claim_C4_asset_checks (st : St) (actor : String)
    (hs : st.ticket.status ≠ Status.closed)
    (ha : st.ticket.action ≠ TicketAction.approve) :
    ((approve st actor).2 = some TicketError.notHaveConfirmedAssets ↔
      resolved_assets st = []) ∧
    ((approve st actor).2 = some TicketError.confirmedAssetsChanged ↔
      resolved_assets st ≠ [] ∧
      (resolved_assets st).length ≠ st.ticket.meta.confirmed_assets.length) :=
  approve_asset_error_iff st actor hs ha

/-- Witness for C4 at the sample state, whose asset checks pass. -/
theorem claim_C4_witness :
    ((approve sampleSt "bob").2 = some TicketError.notHaveConfirmedAssets ↔
      resolved_assets sampleSt = []) ∧
    ((approve sampleSt "bob").2 = some TicketError.confirmedAssetsChanged ↔
      resolved_assets sampleSt ≠ [] ∧
      (resolved_assets sampleSt).length
        ≠ sampleSt.ticket.meta.confirmed_assets.length) :=
  claim_C4_asset_checks sampleSt "bob" (by decide) (by decide)

/-- C5: past the legality check and past passing asset checks, `approve`
raises `NotHaveConfirmedSystemUser` exactly when the confirmed system user
is absent or empty, and raises `ConfirmedSystemUserChanged` exactly when it
is non-empty but the tolerant lookup (`get_object_or_none`, which returns
nothing rather than raising) resolves no live record; moreover the account
checks run only after the asset checks: with zero resolved assets the
outcome is the asset error, whatever the account fields hold. -/
theorem claim_C5_account_checks (st : St) (actor : String)
    (hs : st.ticket.status ≠ Status.closed)
    (ha : st.ticket.action ≠ TicketAction.approve) :
    (resolved_assets st ≠ [] →
      (resolved_assets st).length = st.ticket.meta.confirmed_assets.length →
      (((approve st actor).2 = some TicketError.notHaveConfirmedSystemUser ↔
        (st.ticket.meta.confirmed_system_user = none ∨
         st.ticket.meta.confirmed_system_user = some "")) ∧
       ((approve st actor).2 = some TicketError.confirmedSystemUserChanged ↔
        (strOptTruthy st.ticket.meta.confirmed_system_user = true ∧
         get_object_or_none st.catalog_system_users
           (st.ticket.meta.confirmed_system_user.getD "") = none)))) ∧
    (resolved_assets st = [] →
      (approve st actor).2 = some TicketError.notHaveConfirmedAssets) := by
  have hc := check_can_set_action_ok st.ticket TicketAction.approve hs ha
  constructor
  · intro h1 h2
    have h1e : (resolved_assets st).isEmpty = false := by
      simp [List.isEmpty_iff, h1]
    have htr : strOptTruthy st.ticket.meta.confirmed_system_user = false ↔
        (st.ticket.meta.confirmed_system_user = none ∨
         st.ticket.meta.confirmed_system_user = some "") := by
      cases ho : st.ticket.meta.confirmed_system_user with
      | none => simp [strOptTruthy]
      | some s => simp [strOptTruthy]
    by_cases h3 : strOptTruthy st.ticket.meta.confirmed_system_user = true
    · cases hsu : get_object_or_none st.catalog_system_users
          (st.ticket.meta.confirmed_system_user.getD "") with
      | none =>
        constructor
        · simp [approve, hc, h1e, h2, h3, hsu]
          constructor <;> intro hcontra <;> rw [hcontra] at h3 <;>
            simp [strOptTruthy] at h3
        · simp [approve, hc, h1e, h2, h3, hsu]
      | some su =>
        constructor
        · simp [approve, hc, h1e, h2, h3, hsu]
          constructor <;> intro hcontra <;> rw [hcontra] at h3 <;>
            simp [strOptTruthy] at h3
        · simp [approve, hc, h1e, h2, h3, hsu]
    · have h3f : strOptTruthy st.ticket.meta.confirmed_system_user = false := by
        simpa using h3
      constructor
      · simp [approve, hc, h1e, h2, h3f]
        exact htr.mp h3f
      · simp [approve, hc, h1e, h2, h3f, h3]
  · intro h1
    simp [approve, hc, h1]

/-- Witness for C5 at the sample state: approve succeeds there, so both
account errors are absent and both right-hand sides are false. -/
theorem claim_C5_witness :
    ((approve sampleSt "bob").2 = some TicketError.notHaveConfirmedSystemUser ↔
      (sampleSt.ticket.meta.confirmed_system_user = none ∨
       sampleSt.ticket.meta.confirmed_system_user = some "")) ∧
    ((approve sampleSt "bob").2 = some TicketError.confirmedSystemUserChanged ↔
      (strOptTruthy sampleSt.ticket.meta.confirmed_system_user = true ∧
       get_object_or_none sampleSt.catalog_system_users
         (sampleSt.ticket.meta.confirmed_system_user.getD "") = none)) :=
  (claim_C5_account_checks sampleSt "bob" (by decide) (by decide)).1
    (by decide) (by decide)

/-- C1: evaluation at a concrete state where the requester and the approver
differ. The approve succeeds, the ticket's action becomes APPROVE and
exactly one grant is created carrying the confirmed assets and system user —
but its user association is the approver (`request.user`, here `"bob"`),
not the requesting user `"alice"`: the code passes `request.user` to
`_create_asset_permission`, which runs `ap.users.add(user)` on it. -/
theorem claim_C1_grant_user_is_approver :
    sampleSt.ticket.user = "alice" ∧
    (approve sampleSt "bob").2 = none ∧
    (approve sampleSt "bob").1.ticket.action = TicketAction.approve ∧
    (approve sampleSt "bob").1.perms.map (fun ap => ap.assets)
      = [["asset1"]] ∧
    (approve sampleSt "bob").1.perms.map (fun ap => ap.system_users)
      = [["su1"]] ∧
    (approve sampleSt "bob").1.perms.map (fun ap => ap.users)
      = [["bob"]] ∧
    "bob" ≠ "alice" := by
  decide

/-- C6, counterexample: a meta whose `date_start` key is present but holds
an empty (falsy) value. Approve succeeds, yet the created grant omits
`date_start` — so presence in meta is not the criterion the code uses. -/
theorem claim_C6_counterexample_empty_date :
    sampleStEmptyDate.ticket.meta.date_start.isSome = true ∧
    (approve sampleStEmptyDate "bob").2 = none ∧
    (approve sampleStEmptyDate "bob").1.perms.map (fun ap => ap.date_start)
      = [none] := by
  decide

/-- C6, amended: on every successful approve, the created grant carries
`date_start` (resp. `date_expired`) exactly when the ticket meta holds a
present and truthy (non-empty) value for it at approval time; otherwise the
field is omitted from the creation payload and the store's default
applies. -/
theorem claim_C6_amended_dates (st : St) (actor : String)
    (h : (approve st actor).2 = none) :
    ∃ ap, (approve st actor).1.perms = st.perms ++ [ap] ∧
      ap.date_start = (if strOptTruthy st.ticket.meta.date_start then
        st.ticket.meta.date_start else none) ∧
      ap.date_expired = (if strOptTruthy st.ticket.meta.date_expired then
        st.ticket.meta.date_expired else none) := by
  rw [approve_ok_eq st actor h]
  refine ⟨_, rfl, ?_, ?_⟩ <;>
    by_cases hd1 : strOptTruthy st.ticket.meta.date_start = true <;>
    by_cases hd2 : strOptTruthy st.ticket.meta.date_expired = true <;>
    simp [create_asset_permission, hd1, hd2]

/-- Witness for C6 (amended) at a state with a truthy `date_start` and an
absent `date_expired`. -/
theorem claim_C6_witness :
    (approve sampleStDates "bob").2 = none ∧
    ∃ ap, (approve sampleStDates "bob").1.perms
        = sampleStDates.perms ++ [ap] ∧
      ap.date_start = (if strOptTruthy sampleStDates.ticket.meta.date_start
        then sampleStDates.ticket.meta.date_start else none) ∧
      ap.date_expired = (if strOptTruthy sampleStDates.ticket.meta.date_expired
        then sampleStDates.ticket.meta.date_expired else none) :=
  ⟨by decide, claim_C6_amended_dates sampleStDates "bob" (by decide)⟩

/-- C9: membership in the assignee query set. A user row is returned iff it
is in the directory and either holds the global administrator role, or the
scope is a non-default organizational unit and some organization row with
that id lists the candidate among its admins while the requesting user is
among its users, admins or auditors. The resolution is a pure read by
construction: `assignees` takes no mutable state and produces only the
result list. -/
theorem claim_C9_assignees_membership (dir_users : List UserRec)
    (orgs : List Organization) (user : String) (org_id : String)
    (u : UserRec) :
    u ∈ assignees dir_users orgs user org_id ↔
      u ∈ dir_users ∧
        (u.role = Role.admin ∨
          (org_id ≠ DEFAULT_ID ∧ ∃ o ∈ orgs, o.id = org_id ∧
            u.name ∈ o.admins ∧
            (user ∈ o.users ∨ user ∈ o.admins ∨ user ∈ o.auditors))) := by
  unfold assignees
  rw [List.mem_filter]
  simp [List.any_eq_true, List.elem_iff, Bool.not_eq_true',
    beq_eq_false_iff_ne, and_assoc, or_assoc]

/-- When every confirmed asset is live, a nonempty confirmed list resolves
to a nonempty asset list. -/
theorem resolved_assets_ne_nil (st : St)
    (hne : st.ticket.meta.confirmed_assets ≠ [])
    (hlive : ∀ a ∈ st.ticket.meta.confirmed_assets, a ∈ st.catalog_assets) :
    resolved_assets st ≠ [] := by
  obtain ⟨a, hmem⟩ := List.exists_mem_of_ne_nil _ hne
  intro h
  have hin : a ∈ resolved_assets st := by
    unfold resolved_assets
    rw [List.mem_filter]
    exact ⟨hlive a hmem, by simpa [List.elem_iff] using hmem⟩
  rw [h] at hin
  simp at hin

/-- When every confirmed asset is live but the confirmed list repeats an
identifier, the catalog (duplicate-free) resolves strictly fewer records
than the list has entries. -/
theorem resolved_assets_length_lt (st : St)
    (hnd : ¬ st.ticket.meta.confirmed_assets.Nodup)
    (hlive : ∀ a ∈ st.ticket.meta.confirmed_assets, a ∈ st.catalog_assets)
    (hcat : st.catalog_assets.Nodup) :
    (resolved_assets st).length < st.ticket.meta.confirmed_assets.length := by
  have hres_nd : (resolved_assets st).Nodup := hcat.filter _
  have hfin : (resolved_assets st).toFinset
      = st.ticket.meta.confirmed_assets.toFinset := by
    ext x
    simp only [resolved_assets, List.mem_toFinset, List.mem_filter,
      List.elem_iff]
    constructor
    · rintro ⟨h1, h2⟩
      exact h2
    · intro hx
      exact ⟨hlive x hx, hx⟩
  have h1 : (resolved_assets st).length
      = st.ticket.meta.confirmed_assets.toFinset.card := by
    rw [← hfin, List.toFinset_card_of_nodup hres_nd]
  have h2 : st.ticket.meta.confirmed_assets.toFinset.card
      = st.ticket.meta.confirmed_assets.dedup.length :=
    List.card_toFinset st.ticket.meta.confirmed_assets
  have hle : st.ticket.meta.confirmed_assets.dedup.length
      ≤ st.ticket.meta.confirmed_assets.length :=
    (List.dedup_sublist st.ticket.meta.confirmed_assets).length_le
  have h3 : st.ticket.meta.confirmed_assets.dedup.length
      ≠ st.ticket.meta.confirmed_assets.length := by
    intro heq
    have hdq := (List.dedup_sublist st.ticket.meta.confirmed_assets).eq_of_length heq
    rw [← hdq] at hnd
    exact hnd (List.nodup_dedup st.ticket.meta.confirmed_assets)
  omega

/-- C10: on a ticket passing the legality check whose `confirmed_assets`
list repeats the identifier of a live asset (every listed id resolves, but
the list has duplicates), `approve` raises `ConfirmedAssetsChanged`: the
catalog yields distinct records, fewer than the list has entries. -/
theorem claim_C10_duplicate_live_asset (st : St) (actor : String)
    (hs : st.ticket.status ≠ Status.closed)
    (ha : st.ticket.action ≠ TicketAction.approve)
    (hnd : ¬ st.ticket.meta.confirmed_assets.Nodup)
    (hlive : ∀ a ∈ st.ticket.meta.confirmed_assets, a ∈ st.catalog_assets)
    (hcat : st.catalog_assets.Nodup) :
    (approve st actor).2 = some TicketError.confirmedAssetsChanged := by
  have hne : st.ticket.meta.confirmed_assets ≠ [] := by
    intro h
    rw [h] at hnd
    exact hnd List.nodup_nil
  have hres := resolved_assets_ne_nil st hne hlive
  have hlt := resolved_assets_length_lt st hnd hlive hcat
  exact (approve_asset_error_iff st actor hs ha).2.mpr ⟨hres, Nat.ne_of_lt hlt⟩

/-- Witness for C10: the sample ticket with `confirmed_assets` listing the
same live asset twice. -/
theorem claim_C10_witness :
    (approve sampleStDupAssets "bob").2
      = some TicketError.confirmedAssetsChanged :=
  claim_C10_duplicate_live_asset sampleStDupAssets "bob" (by decide)
    (by decide) (by decide) (by decide) (by decide)
